/-
Verification of the sshx server's hybrid protocol dispatcher
(`crates/sshx-server/src/lib.rs`) against its specification.

The development shallowly embeds the request-classification closure passed to
`Steer::new`, the `tls_redirect_service`, the type-erasure boundary of
`make_server`, and the startup error propagation of `make_server` /
`make_server_bind`.  Header maps are modelled as association lists with
case-insensitive names; header values are modelled as strings (the value
comparisons in the source are exact byte comparisons against ASCII literals,
which coincide with string equality here).
-/
import Mathlib

namespace Sshx

/-- Lowercase a single ASCII character, used for case-insensitive header-name
matching (HTTP header names are matched case-insensitively by `HeaderMap`). -/
def asciiLower (c : Char) : Char :=
  if 65 ≤ c.toNat ∧ c.toNat ≤ 90 then Char.ofNat (c.toNat + 32) else c

/-- Case-normalised form of a header name. -/
def lowerName (s : String) : List Char :=
  s.toList.map asciiLower

/-- Look up the first value for a header name, case-insensitively on the name.
This models `HeaderMap::get`, which returns the first value for a name. -/
def getHeader (hs : List (String × String)) (name : String) : Option String :=
  match hs with
  | [] => none
  | (n, v) :: rest => if lowerName n = lowerName name then some v else getHeader rest name

/-- The three internal services of the dispatcher, in the order of the array
`[http_service, grpc_service, tls_redirect_service]` passed to `Steer::new`. -/
inductive Branch where
  | web
  | rpc
  | redirect
deriving DecidableEq, Repr

/-- Index returned by the classifier closure passed to `Steer::new`:

    match (headers.get("x-forwarded-proto"), headers.get(CONTENT_TYPE)) {
        (Some(proto), _) if proto == "http" => 2,
        (_, Some(content)) if content == "application/grpc" => 1,
        _ => 0,
    }

A Rust match arm whose guard fails falls through to the next arm, so the
closure means: index 2 when `x-forwarded-proto` is present and equals
`"http"`, else index 1 when `content-type` is present and equals
`"application/grpc"`, else index 0. -/
def classifyIndex (hs : List (String × String)) : Nat :=
  if getHeader hs "x-forwarded-proto" = some "http" then 2
  else if getHeader hs "content-type" = some "application/grpc" then 1
  else 0

/-- The service array passed to `Steer::new`, as branch tags. -/
def serviceOrder : List Branch :=
  [Branch.web, Branch.rpc, Branch.redirect]

/-- The classification decision as a branch tag: the service that `Steer`
selects for a request with headers `hs`. -/
def classify (hs : List (String × String)) : Branch :=
  if getHeader hs "x-forwarded-proto" = some "http" then Branch.redirect
  else if getHeader hs "content-type" = some "application/grpc" then Branch.rpc
  else Branch.web

/-- A character a `HeaderValue` may expose through `to_str` (the external
`http` crate's `is_visible_ascii`: byte in `32..127`, or tab). -/
def visibleAscii (c : Char) : Bool :=
  decide ((32 ≤ c.toNat ∧ c.toNat < 127) ∨ c.toNat = 9)

/-- Characters allowed in a URI authority besides the structural ones
(`: [ ] @ %` and the terminators `/ ? #`): ASCII alphanumerics and the
unreserved / sub-delimiter marks of the external `http` crate's URI table. -/
def authAllowedOther (n : Nat) : Bool :=
  decide ((48 ≤ n ∧ n ≤ 57) ∨ (65 ≤ n ∧ n ≤ 90) ∨ (97 ≤ n ∧ n ≤ 122) ∨
    n = 33 ∨ n = 36 ∨ n = 38 ∨ n = 39 ∨ n = 40 ∨ n = 41 ∨ n = 42 ∨ n = 43 ∨
    n = 44 ∨ n = 45 ∨ n = 46 ∨ n = 59 ∨ n = 61 ∨ n = 95 ∨ n = 126)

/-- State carried by the authority scanner: colon count, bracket flags, a
percent flag for the current host section, and the position of the last `@`. -/
structure AuthState where
  colonCnt : Nat
  startBracket : Bool
  endBracket : Bool
  hasPercent : Bool
  atSignPos : Option Nat
deriving DecidableEq, Repr

/-- Scan of an authority candidate, modelled from the external `http` crate's
`Authority` parser: `/ ? #` end the authority early (so for a whole-string
parse they are invalid), `:` counts toward the port separator and rejects
outright past the parser's cap of 8 colons per section, brackets pair for
IPv6 literals, `@` records its position, ends the userinfo section and resets
the host-section state, `%` marks a percent character in the host section,
and any character outside the URI table rejects. -/
def authorityScan : List Char → Nat → AuthState → Option AuthState
  | [], _, st => some st
  | c :: rest, i, st =>
    if c.toNat = 47 ∨ c.toNat = 63 ∨ c.toNat = 35 then none
    else if c.toNat = 58 then
      if st.colonCnt + 1 > 8 then none
      else authorityScan rest (i + 1) { st with colonCnt := st.colonCnt + 1 }
    else if c.toNat = 91 then
      if st.hasPercent ∨ st.startBracket then none
      else authorityScan rest (i + 1) { st with startBracket := true }
    else if c.toNat = 93 then
      if st.endBracket then none
      else authorityScan rest (i + 1)
        { st with endBracket := true, colonCnt := 0, hasPercent := false }
    else if c.toNat = 64 then
      authorityScan rest (i + 1)
        { st with atSignPos := some i, colonCnt := 0, hasPercent := false }
    else if c.toNat = 37 then
      authorityScan rest (i + 1) { st with hasPercent := true }
    else if authAllowedOther c.toNat then authorityScan rest (i + 1) st
    else none

/-- Validity of a `Host` header value as a URI authority, modelled from the
external `http` crate (`Authority::from_str`): non-empty, the scan accepts the
whole string, brackets balance, at most one port colon in the host section,
the last character is not an `@` (nothing after the userinfo separator is
rejected), and no percent character in the host section. -/
def isValidAuthority (s : String) : Bool :=
  match authorityScan s.toList 0 ⟨0, false, false, false, none⟩ with
  | none => false
  | some st =>
    decide (s.toList ≠ [] ∧ st.startBracket = st.endBracket ∧
      st.colonCnt ≤ 1 ∧ st.atSignPos ≠ some (s.toList.length - 1) ∧
      st.hasPercent = false)

/-- Path and optional query of a request URI (hyper keeps the request-target's
path and query exactly as received, without normalisation). -/
structure PathQuery where
  path : String
  query : Option String
deriving DecidableEq, Repr

/-- An inbound request as the redirect responder sees it: its URI's path and
query (absent only for degenerate request targets) and its header list. -/
structure Request where
  pathAndQuery : Option PathQuery
  headers : List (String × String)
deriving DecidableEq, Repr

/-- Outcome of the redirect responder: a response with status code and
`Location` header value, or a request-level error with its message. -/
inductive RedirectResult where
  | ok (status : Nat) (location : String)
  | err (msg : String)
deriving DecidableEq, Repr

/-- Whether the redirect responder's outcome is a request-level error. -/
def RedirectResult.isErr : RedirectResult → Bool
  | .err _ => true
  | .ok _ _ => false

/-- Rendering of a URI's path-and-query component, exactly as `Uri`
displays it: the path, then `?query` when a query is present. -/
def pathQueryString (pq : PathQuery) : String :=
  pq.path ++ match pq.query with | some q => "?" ++ q | none => ""

/-- The `tls_redirect_service` closure of `make_server`: force the scheme to
HTTPS, take the authority from the `Host` header (absence, a non-ASCII value,
or an invalid authority each abort with a request-level error), require the
URI parts to reassemble (`Uri::from_parts` demands a path-and-query once a
scheme is present), and respond with `Redirect::permanent(uri)` — which in
`tower_http` is status `308 Permanent Redirect` with `Location` set to the
URI's string rendering `https://<authority><path>[?query]`. -/
def tls_redirect_service (req : Request) : RedirectResult :=
  match getHeader req.headers "host" with
  | none => RedirectResult.err "tls redirect missing host"
  | some hv =>
    if hv.toList.all visibleAscii then
      if isValidAuthority hv then
        match req.pathAndQuery with
        | some pq => RedirectResult.ok 308 ("https://" ++ hv ++ pathQueryString pq)
        | none => RedirectResult.err "invalid URI parts: path and query missing"
      else RedirectResult.err "invalid authority in host header"
    else RedirectResult.err "host header value is not visible ASCII"

/-- Result of a boxed service call: a response of the unified shape, or a
boxed error (modelled by its message). -/
inductive BoxedResult (ρ : Type) where
  | ok (resp : ρ)
  | err (e : String)
deriving DecidableEq, Repr

/-- Whether a boxed service result is a response at all. -/
def BoxedResult.isOk {ρ : Type} : BoxedResult ρ → Bool
  | .ok _ => true
  | .err _ => false

/-- The type-erasure boundary of `make_server` applied to one service result:
`map_response` converts the body (`mapBody`) and `map_err`/`boxed_clone` box
the error, keeping it an error. -/
def eraseResult {α ρ : Type} (mapBody : α → ρ) : BoxedResult α → BoxedResult ρ
  | .ok r => .ok (mapBody r)
  | .err e => .err e

/-- The dispatcher assembled by `Steer::new` in `make_server`: classify the
request's headers and hand the request to exactly the selected boxed service;
the selected service's result is returned unchanged — nothing in `make_server`
turns a service's error into a response, and no panic-catching layer is
installed. -/
def steerDispatch {ρ : Type} (web rpc redir : Request → BoxedResult ρ)
    (req : Request) : BoxedResult ρ :=
  match classify req.headers with
  | Branch.web => web req
  | Branch.rpc => rpc req
  | Branch.redirect => redir req

/-- Startup event marking that `builder.serve(...)` was entered, i.e. the
server began accepting connections. -/
inductive StartEvent where
  | accepting
deriving DecidableEq, Repr

/-- Run structure of `make_server`: the tonic reflection service is built with
`?` (from the static `FILE_DESCRIPTOR_SET`) before `builder.serve(...)` is
entered, so a reflection-build error returns immediately with an empty trace;
otherwise the accepting phase begins and the serve outcome is returned.  The
parameters stand for the results of the effectful steps. -/
def make_server {ε : Type} (reflection : Except ε Unit)
    (serveTrace : List StartEvent) (serveResult : Except ε Unit) :
    List StartEvent × Except ε Unit :=
  match reflection with
  | Except.error e => ([], Except.error e)
  | Except.ok _ => (StartEvent.accepting :: serveTrace, serveResult)

/-- Run structure of `make_server_bind`: `Server::try_bind(addr)?` runs before
`make_server`, so a bind failure returns immediately and `make_server` is
never entered. -/
def make_server_bind {ε : Type} (bind : Except ε Unit)
    (reflection : Except ε Unit) (serveTrace : List StartEvent)
    (serveResult : Except ε Unit) : List StartEvent × Except ε Unit :=
  match bind with
  | Except.error e => ([], Except.error e)
  | Except.ok _ => make_server reflection serveTrace serveResult

/-- The branch tag agrees with the raw index into the service array, so the
`Steer` combinator hands the request to exactly the service `classify` names. -/
theorem serviceOrder_classifyIndex (hs : List (String × String)) :
    serviceOrder.get? (classifyIndex hs) = some (classify hs) := by
  unfold classifyIndex classify serviceOrder
  by_cases h1 : getHeader hs "x-forwarded-proto" = some "http" <;>
    by_cases h2 : getHeader hs "content-type" = some "application/grpc" <;>
      simp [h1, h2]

/-- C1: whenever the `x-forwarded-proto` header is present and equals `"http"`
(exact match), the classifier selects the Redirect branch, regardless of every
other header — in particular even when `content-type` is `application/grpc`. -/
theorem classify_forwarded_http_redirect (hs : List (String × String))
    (h : getHeader hs "x-forwarded-proto" = some "http") :
    classify hs = Branch.redirect := by
  unfold classify
  rw [if_pos h]

/-- Witness for C1 at a concrete request that also carries a gRPC content-type. -/
theorem classify_forwarded_http_redirect_witness :
    classify [("x-forwarded-proto", "http"), ("content-type", "application/grpc")] =
      Branch.redirect :=
  classify_forwarded_http_redirect _ (by decide)

/-- C4: a request with no `x-forwarded-proto` header whose `content-type` header
is present and equals `application/grpc` is classified to the RPC branch. -/
theorem classify_grpc_content_rpc (hs : List (String × String))
    (h1 : getHeader hs "x-forwarded-proto" = none)
    (h2 : getHeader hs "content-type" = some "application/grpc") :
    classify hs = Branch.rpc := by
  unfold classify
  rw [h1, h2]
  simp

/-- Witness for C4 at a concrete request. -/
theorem classify_grpc_content_rpc_witness :
    classify [("content-type", "application/grpc")] = Branch.rpc :=
  classify_grpc_content_rpc _ (by decide) (by decide)

/-- C5: classification is a pure, total, deterministic function of only the
`x-forwarded-proto` and `content-type` headers, with no error path: it depends
on nothing but the two header lookups; every request maps to exactly one of the
three branches; the selected index always points at exactly one service in the
`Steer` array (so at most one service handle handles a given request); and any
request matching neither rule selects Web as the default catch-all. -/
theorem classify_pure_total_default :
    (∀ hs₁ hs₂ : List (String × String),
        getHeader hs₁ "x-forwarded-proto" = getHeader hs₂ "x-forwarded-proto" →
        getHeader hs₁ "content-type" = getHeader hs₂ "content-type" →
        classify hs₁ = classify hs₂) ∧
    (∀ hs : List (String × String),
        classify hs = Branch.web ∨ classify hs = Branch.rpc ∨ classify hs = Branch.redirect) ∧
    (∀ hs : List (String × String),
        serviceOrder.get? (classifyIndex hs) = some (classify hs)) ∧
    (∀ hs : List (String × String),
        getHeader hs "x-forwarded-proto" ≠ some "http" →
        getHeader hs "content-type" ≠ some "application/grpc" →
        classify hs = Branch.web) := by
  refine ⟨?_, ?_, serviceOrder_classifyIndex, ?_⟩
  · intro hs₁ hs₂ h1 h2
    unfold classify
    rw [h1, h2]
  · intro hs
    unfold classify
    by_cases h1 : getHeader hs "x-forwarded-proto" = some "http" <;>
      by_cases h2 : getHeader hs "content-type" = some "application/grpc" <;>
        simp [h1, h2]
  · intro hs h1 h2
    unfold classify
    rw [if_neg h1, if_neg h2]

/-- Witness for C5: the catch-all conjunct applied at a concrete request with
unrelated headers. -/
theorem classify_pure_total_default_witness :
    classify [("accept", "text/html")] = Branch.web :=
  classify_pure_total_default.2.2.2 [("accept", "text/html")] (by decide) (by decide)

/-- C9: the RPC-branch test is exact equality with `application/grpc` — a
request without a redirect-triggering `x-forwarded-proto` header whose
`content-type` merely begins with `application/grpc` but is not identical to it
is classified to Web, not RPC. -/
theorem classify_grpc_exact_match (hs : List (String × String)) (v : String)
    (h1 : getHeader hs "x-forwarded-proto" ≠ some "http")
    (h2 : getHeader hs "content-type" = some v)
    (_h3 : List.isPrefixOf "application/grpc".toList v.toList = true)
    (h4 : v ≠ "application/grpc") :
    classify hs = Branch.web := by
  unfold classify
  rw [if_neg h1, h2]
  simp [h4]

/-- Witness for C9 at content-type `application/grpc+proto`. -/
theorem classify_grpc_exact_match_witness :
    classify [("content-type", "application/grpc+proto")] = Branch.web :=
  classify_grpc_exact_match _ "application/grpc+proto"
    (by decide) (by decide) (by decide) (by decide)

/-- C10: an `x-forwarded-proto` header present with any value other than
`"http"` never selects the Redirect branch; classification falls through to the
content-type rule, so such a request with content-type `application/grpc` is
routed to RPC and otherwise to Web. -/
theorem classify_forwarded_other (hs : List (String × String)) (v : String)
    (h1 : getHeader hs "x-forwarded-proto" = some v)
    (h2 : v ≠ "http") :
    classify hs ≠ Branch.redirect ∧
    (getHeader hs "content-type" = some "application/grpc" → classify hs = Branch.rpc) ∧
    (getHeader hs "content-type" ≠ some "application/grpc" → classify hs = Branch.web) := by
  have hne : getHeader hs "x-forwarded-proto" ≠ some "http" := by
    rw [h1]
    simp [h2]
  refine ⟨?_, ?_, ?_⟩
  · unfold classify
    rw [if_neg hne]
    by_cases hc : getHeader hs "content-type" = some "application/grpc" <;> simp [hc]
  · intro hc
    unfold classify
    rw [if_neg hne, if_pos hc]
  · intro hc
    unfold classify
    rw [if_neg hne, if_neg hc]

/-- Witness for C10 at `x-forwarded-proto: https` with a gRPC content-type. -/
theorem classify_forwarded_other_witness :
    classify [("x-forwarded-proto", "https"), ("content-type", "application/grpc")] =
      Branch.rpc :=
  (classify_forwarded_other _ "https" (by decide) (by decide)).2.1 (by decide)

/-- C2 counterexample: at the claim's own example (Host `example.com`, path
`/a/b`, query `q=1`) the responder does not return an HTTP 301 response with
that Location — `Redirect::permanent` produces status 308, not 301. -/
theorem tls_redirect_not_301 :
    tls_redirect_service
      { pathAndQuery := some { path := "/a/b", query := some "q=1" },
        headers := [("host", "example.com")] } ≠
      RedirectResult.ok 301 "https://example.com/a/b?q=1" := by
  decide

/-- C2 (amended): for every request routed to the Redirect branch carrying a
valid `Host` header, the responder returns an HTTP 308 permanent-redirect
response whose Location is exactly `https://<Host value><path>[?query]` — the
scheme is forced to https, the authority is the `Host` value, and path and
query are preserved exactly. -/
theorem tls_redirect_permanent (req : Request) (host : String) (pq : PathQuery)
    (hhost : getHeader req.headers "host" = some host)
    (hascii : host.toList.all visibleAscii = true)
    (hauth : isValidAuthority host = true)
    (hpq : req.pathAndQuery = some pq) :
    tls_redirect_service req =
      RedirectResult.ok 308 ("https://" ++ host ++ pathQueryString pq) := by
  simp only [tls_redirect_service, hhost]
  rw [if_pos hascii, if_pos hauth, hpq]

/-- Witness for the amended C2 at the claim's example input. -/
theorem tls_redirect_permanent_witness :
    tls_redirect_service
      { pathAndQuery := some { path := "/a/b", query := some "q=1" },
        headers := [("host", "example.com")] } =
      RedirectResult.ok 308
        ("https://" ++ "example.com" ++ pathQueryString { path := "/a/b", query := some "q=1" }) :=
  tls_redirect_permanent _ "example.com" _ (by decide) (by decide) (by decide) rfl

/-- C3: redirect-construction failures are request-level client errors, never
a crash and never a malformed redirect: an absent `Host` header yields exactly
the error "tls redirect missing host"; a `Host` value that is not visible
ASCII, or not a valid authority, or a URI that cannot be reassembled yields a
request-level error; and every outcome of the responder is either a
request-level error or a well-formed 308 redirect — nothing else. -/
theorem tls_redirect_request_error (req : Request) :
    (getHeader req.headers "host" = none →
      tls_redirect_service req = RedirectResult.err "tls redirect missing host") ∧
    (∀ host : String, getHeader req.headers "host" = some host →
      (host.toList.all visibleAscii = false ∨ isValidAuthority host = false ∨
        req.pathAndQuery = none) →
      (tls_redirect_service req).isErr = true) ∧
    ((tls_redirect_service req).isErr = true ∨
      ∃ loc : String, tls_redirect_service req = RedirectResult.ok 308 loc) := by
  refine ⟨?_, ?_, ?_⟩
  · intro h
    simp only [tls_redirect_service, h]
  · intro host hh hbad
    simp only [tls_redirect_service, hh]
    by_cases ha : host.toList.all visibleAscii = true
    · rw [if_pos ha]
      by_cases hva : isValidAuthority host = true
      · rw [if_pos hva]
        rcases hbad with h | h | h
        · rw [ha] at h
          cases h
        · rw [hva] at h
          cases h
        · rw [h]
          rfl
      · rw [if_neg hva]
        rfl
    · rw [if_neg ha]
      rfl
  · rcases hg : getHeader req.headers "host" with _ | hv
    · refine Or.inl ?_
      simp only [tls_redirect_service, hg]
      rfl
    · simp only [tls_redirect_service, hg]
      by_cases ha : hv.toList.all visibleAscii = true
      · rw [if_pos ha]
        by_cases hva : isValidAuthority hv = true
        · rw [if_pos hva]
          rcases hpq : req.pathAndQuery with _ | pq
          · exact Or.inl rfl
          · exact Or.inr ⟨"https://" ++ hv ++ pathQueryString pq, rfl⟩
        · rw [if_neg hva]
          exact Or.inl rfl
      · rw [if_neg ha]
        exact Or.inl rfl

/-- Witness for C3 at a concrete request with no `Host` header. -/
theorem tls_redirect_request_error_witness :
    tls_redirect_service { pathAndQuery := some { path := "/", query := none }, headers := [] } =
      RedirectResult.err "tls redirect missing host" :=
  (tls_redirect_request_error _).1 (by decide)

/-- C6 counterexample: with a Web handler that fails on a concrete request,
the dispatcher's output for that request is the boxed error itself — not a
response of any kind, so no generic server-error response is synthesized at
the dispatcher boundary. -/
theorem steerDispatch_no_error_conversion :
    steerDispatch (fun _ => BoxedResult.err "handler failure")
        (fun _ => BoxedResult.ok (0 : Nat)) (fun _ => BoxedResult.ok (0 : Nat))
        { pathAndQuery := some { path := "/", query := none }, headers := [] } =
      BoxedResult.err "handler failure" ∧
    (steerDispatch (fun _ => BoxedResult.err "handler failure")
        (fun _ => BoxedResult.ok (0 : Nat)) (fun _ => BoxedResult.ok (0 : Nat))
        { pathAndQuery := some { path := "/", query := none }, headers := [] }).isOk =
      false := by
  exact ⟨rfl, rfl⟩

/-- C6 (amended): an error raised inside the Web or RPC service handler
crosses the `make_server` type-erasure boundary unchanged as a boxed
request-level error — the boundary boxes errors but converts nothing into a
response, so the failing request's outcome is the error itself. -/
theorem dispatcher_error_propagation {α ρ : Type} (mapBody : α → ρ) (e : String)
    (web rpc redir : Request → BoxedResult ρ) (req : Request) :
    eraseResult mapBody (BoxedResult.err e) = BoxedResult.err e ∧
    (classify req.headers = Branch.web → web req = BoxedResult.err e →
      steerDispatch web rpc redir req = BoxedResult.err e) ∧
    (classify req.headers = Branch.rpc → rpc req = BoxedResult.err e →
      steerDispatch web rpc redir req = BoxedResult.err e) := by
  refine ⟨rfl, ?_, ?_⟩
  · intro hc hw
    unfold steerDispatch
    rw [hc, hw]
  · intro hc hr
    unfold steerDispatch
    rw [hc, hr]

/-- Witness for the amended C6: a failing Web handler's error reaches the
dispatcher output unchanged on a concrete Web-classified request. -/
theorem dispatcher_error_propagation_witness :
    steerDispatch (fun _ => BoxedResult.err "boom")
        (fun _ => BoxedResult.ok (0 : Nat)) (fun _ => BoxedResult.ok (0 : Nat))
        { pathAndQuery := some { path := "/", query := none }, headers := [] } =
      BoxedResult.err "boom" :=
  (dispatcher_error_propagation (id : Nat → Nat) "boom" _ _ _ _).2.1 (by decide) rfl

/-- C8: startup errors are fatal and reported to the caller before the server
ever accepts: a listener-bind failure makes `make_server_bind` return that
error, a reflection-build failure makes `make_server` return that error, and
in both cases the accepting phase is never reached. -/
theorem startup_errors_fatal {ε : Type} (e : ε) (reflection : Except ε Unit)
    (serveTrace : List StartEvent) (serveResult : Except ε Unit) :
    make_server_bind (Except.error e) reflection serveTrace serveResult =
      ([], Except.error e) ∧
    make_server (Except.error e : Except ε Unit) serveTrace serveResult =
      ([], Except.error e) ∧
    StartEvent.accepting ∉
      (make_server_bind (Except.error e) reflection serveTrace serveResult).1 ∧
    StartEvent.accepting ∉
      (make_server (Except.error e : Except ε Unit) serveTrace serveResult).1 := by
  refine ⟨rfl, rfl, ?_, ?_⟩ <;> simp [make_server_bind, make_server]

/-- Witness for C8 at a concrete bind failure. -/
theorem startup_errors_fatal_witness :
    make_server_bind (Except.error "bind: address in use") (Except.ok ()) []
        (Except.ok ()) =
      ([], Except.error "bind: address in use") :=
  (startup_errors_fatal "bind: address in use" (Except.ok ()) [] (Except.ok ())).1

end Sshx
